import Mathlib

/-!
Shallow embedding of the rt_gpu renderer core (src/renderer.rs and the
presentation loop of src/main.rs).

Machine scalars are modelled as `Nat`: a `u32` value is a natural number
below 2^32, and an `f32` value is represented by the natural number whose
binary digits are the 32-bit IEEE-754 pattern of the float (bytemuck casts
expose exactly those bytes, and no claim performs float arithmetic).
GPU buffers are modelled as identified byte arrays; the wgpu queue's staged
writes are modelled as immediate updates of the buffer contents, which is
sound here because every claim observes contents only between submissions.
Side effects (buffer creation and release, queue writes, render-pass
commands) are recorded in an explicit event trace so that ordering claims
(replacement created before the old buffer is released, exactly one draw
per frame, and so on) can be stated.
-/

namespace RtGpu

/-- Little-endian bytes of a `u32` value (bytemuck's view of one field). -/
def u32Bytes (n : Nat) : List Nat :=
  [n % 256, n / 2 ^ 8 % 256, n / 2 ^ 16 % 256, n / 2 ^ 24 % 256]

/-- Little-endian bytes of a `u16` value (the index buffer elements). -/
def u16Bytes (n : Nat) : List Nat :=
  [n % 256, n / 2 ^ 8 % 256]

/-- The IEEE-754 bit pattern of `1.0f32`. -/
def f32One : Nat := 1065353216

/-- The IEEE-754 bit pattern of `-1.0f32`. -/
def f32NegOne : Nat := 3212836864

/-- The IEEE-754 bit pattern of `0.0f32`. -/
def f32Zero : Nat := 0

/-- The IEEE-754 bit pattern of `2.0f32`. -/
def f32Two : Nat := 1073741824

/-- The IEEE-754 bit pattern of `0.5f32`. -/
def f32Half : Nat := 1056964608

/-- A `wgpu::Buffer`: an identity (wgpu buffers are distinct objects), the
allocated size in bytes (`wgpu::Buffer::size`), and the byte contents. -/
structure GpuBuffer where
  id : Nat
  size : Nat
  contents : List Nat
deriving DecidableEq, Repr

/-- A `wgpu::BindGroup` over a single buffer binding: which buffer it
references and which byte range (`as_entire_binding` means offset 0 and the
buffer's full size). -/
structure BindGroup where
  bufferId : Nat
  offset : Nat
  size : Nat
deriving DecidableEq, Repr

/-- Bytes of `CameraUniform { width, height }` (renderer.rs lines 6-12:
two `u32` fields, `repr(C)`, no padding). -/
def encodeCameraUniform (width height : Nat) : List Nat :=
  u32Bytes width ++ u32Bytes height

/-- Bytes of `TimeUniform { elapsed_ms, _padding }` (renderer.rs lines
14-20: an `f32` bit pattern then a zero `u32` padding word). -/
def encodeTimeUniform (elapsedMsBits : Nat) : List Nat :=
  u32Bytes elapsedMsBits ++ u32Bytes 0

/-- `Sphere { position: Vec3, radius: f32, color: Vec4 }` (renderer.rs
lines 22-29), each scalar an `f32` bit pattern. -/
structure Sphere where
  posX : Nat
  posY : Nat
  posZ : Nat
  radius : Nat
  colorR : Nat
  colorG : Nat
  colorB : Nat
  colorA : Nat
deriving DecidableEq, Repr

/-- bytemuck's byte view of a `Sphere`: `repr(C, align(16))` with fields
Vec3 (12 bytes), f32 (4 bytes), Vec4 (16 bytes) packs to exactly 32 bytes
with no padding. -/
def sphereToBytes (s : Sphere) : List Nat :=
  u32Bytes s.posX ++ u32Bytes s.posY ++ u32Bytes s.posZ ++ u32Bytes s.radius ++
    u32Bytes s.colorR ++ u32Bytes s.colorG ++ u32Bytes s.colorB ++ u32Bytes s.colorA

/-- `std::mem::size_of::<Sphere>()`: 32 bytes. -/
def SPHERE_SIZE : Nat := 32

/-- `Vertex { position: Vec3, uv: Vec2 }` (renderer.rs lines 31-36),
scalars as `f32` bit patterns. -/
structure Vertex where
  posX : Nat
  posY : Nat
  posZ : Nat
  uvX : Nat
  uvY : Nat
deriving DecidableEq, Repr

/-- bytemuck's byte view of a `Vertex` (20 bytes, no padding). -/
def Vertex.toBytes (v : Vertex) : List Nat :=
  u32Bytes v.posX ++ u32Bytes v.posY ++ u32Bytes v.posZ ++ u32Bytes v.uvX ++ u32Bytes v.uvY

/-- `QUAD_VERTICES` (renderer.rs lines 63-69): the four corners of the
full-screen quad. -/
def QUAD_VERTICES : List Vertex :=
  [ { posX := f32NegOne, posY := f32NegOne, posZ := f32Zero, uvX := f32NegOne, uvY := f32NegOne }
  , { posX := f32One, posY := f32One, posZ := f32Zero, uvX := f32One, uvY := f32One }
  , { posX := f32One, posY := f32NegOne, posZ := f32Zero, uvX := f32One, uvY := f32NegOne }
  , { posX := f32NegOne, posY := f32One, posZ := f32Zero, uvX := f32NegOne, uvY := f32One } ]

/-- `QUAD_INDICES` (renderer.rs lines 71-75): two triangles covering the quad. -/
def QUAD_INDICES : List Nat := [0, 1, 2, 0, 3, 1]

/-- Observable GPU-facing effects, recorded in source order. -/
inductive Event where
  | unmapBuffer (id : Nat)
  | createBuffer (id : Nat) (size : Nat)
  | createBindGroup (bufferId : Nat)
  | releaseBuffer (id : Nat)
  | writeBuffer (id : Nat) (offset : Nat) (size : Nat)
  | logError
  | beginRenderPass (tex : Nat) (r g b a : Nat)
  | setPipeline
  | setBindGroup (slot : Nat) (bufferId : Option Nat)
  | setVertexBuffer (slot : Nat) (bufferId : Nat)
  | setIndexBuffer (bufferId : Nat)
  | drawIndexed (indexCount : Nat) (instanceCount : Nat) (objectsRef : Option Nat)
  | endRenderPass
  | submit
  | configureSurface (width : Nat) (height : Nat)
  | present (tex : Nat)
  | requestRedraw
deriving DecidableEq, Repr

/-- Recognizes buffer-creation events. -/
def isCreateBuffer : Event → Bool
  | .createBuffer _ _ => true
  | _ => false

/-- Recognizes buffer-release events. -/
def isReleaseBuffer : Event → Bool
  | .releaseBuffer _ => true
  | _ => false

/-- Recognizes queue writes. -/
def isWriteBuffer : Event → Bool
  | .writeBuffer _ _ _ => true
  | _ => false

/-- Recognizes indexed draw calls. -/
def isDraw : Event → Bool
  | .drawIndexed _ _ _ => true
  | _ => false

/-- Recognizes command-sequence submissions. -/
def isSubmit : Event → Bool
  | .submit => true
  | _ => false

/-- Recognizes surface presentations. -/
def isPresent : Event → Bool
  | .present _ => true
  | _ => false

/-- Every `releaseBuffer` event of the trace is preceded by some
`createBuffer` event (the replacement is fully created before the old
buffer is released). -/
def createdBeforeReleased (evts : List Event) : Prop :=
  ∀ j, ∀ hj : j < evts.length, isReleaseBuffer evts[j] = true →
    ∃ i, ∃ hi : i < evts.length, i < j ∧ isCreateBuffer evts[i] = true

/-- The `Renderer` struct (renderer.rs lines 154-166). The pipeline and
bind-group layouts carry no claim-relevant state and are omitted; `nextId`
is the allocator of fresh buffer identities and `released` records the
identities of buffers that have been dropped. -/
structure Renderer where
  vertexBuffer : GpuBuffer
  indexBuffer : GpuBuffer
  cameraBuffer : GpuBuffer
  cameraBindGroup : BindGroup
  timeBuffer : GpuBuffer
  timeBindGroup : BindGroup
  objectsBuffer : Option GpuBuffer
  objectsBindGroup : Option BindGroup
  nextId : Nat
  released : List Nat
deriving DecidableEq, Repr

/-- `create_objects_buffer` (renderer.rs lines 108-152): for size 0 it
returns no buffer and no bind group; otherwise it creates a buffer of
exactly `size` bytes (wgpu zero-initializes) and a bind group whose single
entry is `buffer.as_entire_binding()`. Returns the new allocator state and
the creation events. -/
def create_objects_buffer (nextId : Nat) (size : Nat) :
    Option GpuBuffer × Option BindGroup × Nat × List Event :=
  if size = 0 then (none, none, nextId, [])
  else
    let buffer : GpuBuffer := { id := nextId, size := size, contents := List.replicate size 0 }
    let bindGroup : BindGroup := { bufferId := buffer.id, offset := 0, size := buffer.size }
    (some buffer, some bindGroup, nextId + 1,
      [Event.createBuffer buffer.id size, Event.createBindGroup buffer.id])

/-- `Renderer::new` (renderer.rs lines 169-314): buffers are created in
source order (vertex, index, camera, time), the camera uniform is
initialized to width 1, height 1, the time uniform to 0.0 ms, and the
objects buffer is created with size 0, hence absent. -/
def Renderer.new : Renderer :=
  { vertexBuffer :=
      { id := 0
      , size := (QUAD_VERTICES.map Vertex.toBytes).flatten.length
      , contents := (QUAD_VERTICES.map Vertex.toBytes).flatten }
  , indexBuffer :=
      { id := 1
      , size := (QUAD_INDICES.map u16Bytes).flatten.length
      , contents := (QUAD_INDICES.map u16Bytes).flatten }
  , cameraBuffer := { id := 2, size := 8, contents := encodeCameraUniform 1 1 }
  , cameraBindGroup := { bufferId := 2, offset := 0, size := 8 }
  , timeBuffer := { id := 3, size := 8, contents := encodeTimeUniform f32Zero }
  , timeBindGroup := { bufferId := 3, offset := 0, size := 8 }
  , objectsBuffer := (create_objects_buffer 4 0).1
  , objectsBindGroup := (create_objects_buffer 4 0).2.1
  , nextId := (create_objects_buffer 4 0).2.2.1
  , released := [] }

/-- `Renderer::update_camera` (renderer.rs lines 316-322):
`queue.write_buffer` of the whole 8-byte camera uniform at offset 0. -/
def Renderer.update_camera (r : Renderer) (width height : Nat) : Renderer × List Event :=
  ({ r with cameraBuffer := { r.cameraBuffer with contents := encodeCameraUniform width height } }
  , [Event.writeBuffer r.cameraBuffer.id 0 (encodeCameraUniform width height).length])

/-- `Renderer::update_time` (renderer.rs lines 324-333):
`queue.write_buffer` of the whole 8-byte time uniform at offset 0. -/
def Renderer.update_time (r : Renderer) (elapsedMsBits : Nat) : Renderer × List Event :=
  ({ r with timeBuffer := { r.timeBuffer with contents := encodeTimeUniform elapsedMsBits } }
  , [Event.writeBuffer r.timeBuffer.id 0 (encodeTimeUniform elapsedMsBits).length])

/-- The chunked record write of `update_spheres` (renderer.rs lines
363-366): `buffer_view.chunks_mut(SPHERE_SIZE)` zipped with the sphere
iterator, each chunk overwritten by one record's bytes. When the view's
length is `spheres.length * SPHERE_SIZE` every chunk is fully written. -/
def writeSpheresBytes : List Sphere → List Nat → List Nat
  | [], view => view
  | s :: rest, view => sphereToBytes s ++ writeSpheresBytes rest (List.drop SPHERE_SIZE view)

/-- `Renderer::update_spheres` (renderer.rs lines 335-367). `allocOk`
models whether `queue.write_buffer_with` succeeds in allocating its
staging view; the source unwraps its `Option` result, so a `none` result
here models a panic of the process. Event order follows the source: unmap
the old buffer, create the replacement buffer and bind group, drop (and
thereby release) the old buffer at the field assignment, then write the
records. -/
def Renderer.update_spheres (r : Renderer) (allocOk : Bool) (spheres : List Sphere) :
    Option (Renderer × List Event) :=
  let new_size := spheres.length * SPHERE_SIZE
  if new_size = 0 then some (r, [])
  else
    let resize := match r.objectsBuffer with
      | none => true
      | some buffer => buffer.size ≠ new_size
    let afterResize : Renderer × List Event :=
      if resize then
        let unmapEvts := match r.objectsBuffer with
          | some old => [Event.unmapBuffer old.id]
          | none => []
        let created := create_objects_buffer r.nextId new_size
        let releaseEvts := match r.objectsBuffer with
          | some old => [Event.releaseBuffer old.id]
          | none => []
        let released := match r.objectsBuffer with
          | some old => old.id :: r.released
          | none => r.released
        ({ r with objectsBuffer := created.1, objectsBindGroup := created.2.1,
                  nextId := created.2.2.1, released := released }
        , unmapEvts ++ created.2.2.2 ++ releaseEvts)
      else (r, [])
    match afterResize.1.objectsBuffer with
    | none => none
    | some buf =>
      if allocOk then
        let written : GpuBuffer :=
          { buf with contents := writeSpheresBytes spheres (List.replicate new_size 0) }
        some ({ afterResize.1 with objectsBuffer := some written }
        , afterResize.2 ++ [Event.writeBuffer buf.id 0 new_size])
      else none

/-- `Renderer::render` (renderer.rs lines 370-409): one render pass that
clears to the fixed magenta background (r 1.0, g 0.0, b 1.0, a 1.0), binds
the pipeline, the camera, time and objects groups at slots 0, 1, 2, the
quad vertex and index buffers, issues one indexed draw of all six indices
for one instance, ends the pass and submits. The renderer state is not
changed. -/
def Renderer.render (r : Renderer) (tex : Nat) : List Event :=
  [ Event.beginRenderPass tex 1 0 1 1
  , Event.setPipeline
  , Event.setBindGroup 0 (some r.cameraBindGroup.bufferId)
  , Event.setBindGroup 1 (some r.timeBindGroup.bufferId)
  , Event.setBindGroup 2 (r.objectsBindGroup.map BindGroup.bufferId)
  , Event.setVertexBuffer 0 r.vertexBuffer.id
  , Event.setIndexBuffer r.indexBuffer.id
  , Event.drawIndexed QUAD_INDICES.length 1 (r.objectsBindGroup.map BindGroup.bufferId)
  , Event.endRenderPass
  , Event.submit ]

/-- One host-visible renderer operation. -/
inductive Op where
  | updateCamera (width height : Nat)
  | updateTime (elapsedMsBits : Nat)
  | updateSpheres (spheres : List Sphere)
  | render (tex : Nat)
deriving DecidableEq, Repr

/-- Apply one operation (allocation assumed to succeed, as every claim but
the allocation-failure one does). -/
def Renderer.step (r : Renderer) : Op → Renderer × List Event
  | .updateCamera w h => r.update_camera w h
  | .updateTime ms => r.update_time ms
  | .updateSpheres ss => (r.update_spheres true ss).getD (r, [])
  | .render tex => (r, r.render tex)

/-- Apply a sequence of operations, concatenating the event traces. -/
def Renderer.run (r : Renderer) : List Op → Renderer × List Event
  | [] => (r, [])
  | op :: ops =>
      let s1 := r.step op
      let s2 := s1.1.run ops
      (s2.1, s1.2 ++ s2.2)

/-- The object buffer and object bind group are either both absent or both
present, and when present the bind group references exactly that buffer in
its entirety (offset 0, the buffer's full size). -/
def Renderer.objectsConsistent (r : Renderer) : Prop :=
  match r.objectsBuffer, r.objectsBindGroup with
  | none, none => True
  | some b, some g => g.bufferId = b.id ∧ g.offset = 0 ∧ g.size = b.size
  | _, _ => False

/-- Well-formedness of a renderer state: released identities are stale
(below the allocator), and the object buffer and bind group are consistent,
live (not released) and below the allocator. Holds for `Renderer.new` and
is preserved by every operation. -/
def Renderer.wf (r : Renderer) : Prop :=
  (∀ x ∈ r.released, x < r.nextId) ∧
    match r.objectsBuffer, r.objectsBindGroup with
    | none, none => True
    | some b, some g =>
        g.bufferId = b.id ∧ g.offset = 0 ∧ g.size = b.size ∧
          b.id ∉ r.released ∧ b.id < r.nextId
    | _, _ => False

/-- `wgpu::SurfaceError` as matched by `render` in main.rs. -/
inductive SurfaceError where
  | Timeout
  | Outdated
  | Lost
  | OutOfMemory
deriving DecidableEq, Repr

/-- The result of `surface.get_current_texture()`. -/
inductive AcquireResult where
  | ok (tex : Nat)
  | err (e : SurfaceError)
deriving DecidableEq, Repr

/-- The four-way per-acquisition classification of the loop body. -/
inductive FrameOutcome where
  | rendered
  | reconfiguredAndSkipped
  | fatal
  | loggedAndSkipped
deriving DecidableEq, Repr

/-- `SurfaceConfiguration` restricted to the claim-relevant dimensions. -/
structure SurfaceConfig where
  width : Nat
  height : Nat
deriving DecidableEq, Repr

/-- A `RenderTarget` of main.rs lines 233-239: the window's current inner
size, the surface configuration and the renderer. -/
structure RenderTarget where
  windowWidth : Nat
  windowHeight : Nat
  config : SurfaceConfig
  renderer : Renderer
deriving DecidableEq, Repr

/-- `RenderTarget::resize` (main.rs lines 241-252): update the stored
configuration's dimensions, reconfigure the surface with it, rewrite the
camera uniform with the same dimensions, request a redraw. -/
def RenderTarget.resize (t : RenderTarget) (width height : Nat) : RenderTarget × List Event :=
  let config : SurfaceConfig := { width := width, height := height }
  let cam := t.renderer.update_camera width height
  ({ t with config := config, renderer := cam.1 }
  , Event.configureSurface config.width config.height :: cam.2 ++ [Event.requestRedraw])

/-- The per-target body of the `render` system (main.rs lines 363-382),
classifying one presentation-acquire attempt in source match order:
`OutOfMemory` hits `todo!()` which panics and terminates the process
(modelled as outcome `fatal` with no successor state); `Lost` resizes to
the window's current inner size and skips the frame; any other error
(`Outdated`, `Timeout`) is logged and the frame skipped with the state
untouched; `Ok` renders into the acquired texture and presents it. -/
def renderTick (t : RenderTarget) (acquire : AcquireResult) :
    FrameOutcome × Option (RenderTarget × List Event) :=
  match acquire with
  | .err .OutOfMemory => (.fatal, none)
  | .err .Lost => (.reconfiguredAndSkipped, some (t.resize t.windowWidth t.windowHeight))
  | .err _ => (.loggedAndSkipped, some (t, [Event.logError]))
  | .ok tex => (.rendered, some (t, t.renderer.render tex ++ [Event.present tex]))

/-- `RenderTargets::add` (main.rs lines 195-197): the host constructs the
renderer and immediately supplies the window's dimensions by calling
`update_camera` itself. -/
def addRenderer (width height : Nat) : Renderer :=
  (Renderer.new.update_camera width height).1

/-- The first example sphere of the spec's byte-identity test:
position (0,0,0), radius 1.0, color (1,0,0,1). -/
def sphereEx1 : Sphere :=
  { posX := f32Zero, posY := f32Zero, posZ := f32Zero, radius := f32One
  , colorR := f32One, colorG := f32Zero, colorB := f32Zero, colorA := f32One }

/-- The second example sphere: position (2,0,0), radius 0.5,
color (0,1,0,1). -/
def sphereEx2 : Sphere :=
  { posX := f32Two, posY := f32Zero, posZ := f32Zero, radius := f32Half
  , colorR := f32Zero, colorG := f32One, colorB := f32Zero, colorA := f32One }

/-- One record's byte image is exactly one stride long. -/
theorem sphereToBytes_length (s : Sphere) : (sphereToBytes s).length = SPHERE_SIZE := rfl

/-- With zero records `update_spheres` returns at once, whatever the
staging allocator would have done. -/
theorem update_spheres_nil (r : Renderer) (allocOk : Bool) :
    r.update_spheres allocOk [] = some (r, []) := rfl

/-- Branch shape of `update_spheres` when no object buffer exists yet:
a buffer of exactly the required size and a bind group onto it are created
and written; nothing is released. -/
theorem update_spheres_eq_of_none (r : Renderer) (ss : List Sphere)
    (hOb : r.objectsBuffer = none) (hne : ss.length * SPHERE_SIZE ≠ 0) :
    r.update_spheres true ss =
      some ({ r with
                objectsBuffer := some
                  { id := r.nextId, size := ss.length * SPHERE_SIZE
                  , contents := writeSpheresBytes ss (List.replicate (ss.length * SPHERE_SIZE) 0) }
              , objectsBindGroup := some
                  { bufferId := r.nextId, offset := 0, size := ss.length * SPHERE_SIZE }
              , nextId := r.nextId + 1 }
      , [Event.createBuffer r.nextId (ss.length * SPHERE_SIZE),
         Event.createBindGroup r.nextId,
         Event.writeBuffer r.nextId 0 (ss.length * SPHERE_SIZE)]) := by
  simp [Renderer.update_spheres, create_objects_buffer, hOb, hne]

/-- Branch shape of `update_spheres` when the existing buffer already has
the required capacity: the buffer and bind group are kept and only the
contents are rewritten. -/
theorem update_spheres_eq_of_same (r : Renderer) (ss : List Sphere) (old : GpuBuffer)
    (hOb : r.objectsBuffer = some old)
    (hsz : old.size = ss.length * SPHERE_SIZE) (hne : ss.length * SPHERE_SIZE ≠ 0) :
    r.update_spheres true ss =
      some ({ r with
                objectsBuffer := some
                  ({ old with contents := writeSpheresBytes ss (List.replicate (ss.length * SPHERE_SIZE) 0) }) }
      , [Event.writeBuffer old.id 0 (ss.length * SPHERE_SIZE)]) := by
  simp [Renderer.update_spheres, hOb, hsz, hne]

/-- Branch shape of `update_spheres` when the existing buffer's capacity
differs from the requirement: the replacement buffer and bind group are
created first, the old buffer is released after, and the new buffer is
written. -/
theorem update_spheres_eq_of_ne (r : Renderer) (ss : List Sphere) (old : GpuBuffer)
    (hOb : r.objectsBuffer = some old)
    (hsz : old.size ≠ ss.length * SPHERE_SIZE) (hne : ss.length * SPHERE_SIZE ≠ 0) :
    r.update_spheres true ss =
      some ({ r with
                objectsBuffer := some
                  { id := r.nextId, size := ss.length * SPHERE_SIZE
                  , contents := writeSpheresBytes ss (List.replicate (ss.length * SPHERE_SIZE) 0) }
              , objectsBindGroup := some
                  { bufferId := r.nextId, offset := 0, size := ss.length * SPHERE_SIZE }
              , nextId := r.nextId + 1
              , released := old.id :: r.released }
      , [Event.unmapBuffer old.id,
         Event.createBuffer r.nextId (ss.length * SPHERE_SIZE),
         Event.createBindGroup r.nextId,
         Event.releaseBuffer old.id,
         Event.writeBuffer r.nextId 0 (ss.length * SPHERE_SIZE)]) := by
  simp [Renderer.update_spheres, create_objects_buffer, hOb, hsz, hne]

/-- A nonempty record list needs a nonzero number of bytes. -/
theorem new_size_ne_zero {ss : List Sphere} (h : ss ≠ []) :
    ss.length * SPHERE_SIZE ≠ 0 :=
  Nat.mul_ne_zero (fun hl => h (List.length_eq_zero.mp hl)) (by decide)

/-- Writing record by record at the fixed stride into an exactly sized
view produces the concatenation of the records' byte images. -/
theorem writeSpheresBytes_eq (ss : List Sphere) :
    ∀ view : List Nat, view.length = ss.length * SPHERE_SIZE →
      writeSpheresBytes ss view = (ss.map sphereToBytes).flatten := by
  induction ss with
  | nil =>
      intro view hv
      simp only [List.length_nil, Nat.zero_mul] at hv
      simp [writeSpheresBytes, List.length_eq_zero.mp hv]
  | cons s rest ih =>
      intro view hv
      simp only [writeSpheresBytes, List.map_cons, List.flatten_cons]
      rw [ih]
      rw [List.length_drop, hv]
      simp only [List.length_cons, SPHERE_SIZE]
      omega

/-- Record `i` of the concatenated byte image sits at offset
`SPHERE_SIZE * i` and is byte-identical to the input record. -/
theorem flatten_sphere_stride (ss : List Sphere) :
    ∀ i, ∀ hi : i < ss.length,
      (((ss.map sphereToBytes).flatten).drop (SPHERE_SIZE * i)).take SPHERE_SIZE
        = sphereToBytes (ss.get ⟨i, hi⟩) := by
  induction ss with
  | nil => intro i hi; simp at hi
  | cons s rest ih =>
      intro i hi
      cases i with
      | zero =>
          simp only [List.map_cons, List.flatten_cons, Nat.mul_zero, List.drop_zero]
          rw [show SPHERE_SIZE = (sphereToBytes s).length from rfl, List.take_left]
          rfl
      | succ n =>
          simp only [List.map_cons, List.flatten_cons]
          rw [show SPHERE_SIZE * (n + 1) = (sphereToBytes s).length + SPHERE_SIZE * n from by
                rw [sphereToBytes_length]; ring]
          rw [← List.drop_drop, List.drop_left]
          exact ih n (Nat.lt_of_succ_lt_succ hi)

/-- The freshly constructed renderer is well formed. -/
theorem wf_new : Renderer.new.wf := by
  refine ⟨?_, trivial⟩
  intro x hx
  simp [Renderer.new] at hx

/-- Every operation preserves well-formedness. -/
theorem step_wf (r : Renderer) (op : Op) (h : r.wf) : ((r.step op).1).wf := by
  obtain ⟨hrel, hob⟩ := h
  cases op with
  | updateCamera w hh => exact ⟨hrel, hob⟩
  | updateTime ms => exact ⟨hrel, hob⟩
  | render tex => exact ⟨hrel, hob⟩
  | updateSpheres ss =>
    rcases eq_or_ne ss [] with hss | hss
    · subst hss
      simp only [Renderer.step, update_spheres_nil, Option.getD_some]
      exact ⟨hrel, hob⟩
    · have hne := new_size_ne_zero hss
      rcases hOb : r.objectsBuffer with _ | old
      · rcases hBg : r.objectsBindGroup with _ | g
        · simp only [Renderer.step, update_spheres_eq_of_none r ss hOb hne, Option.getD_some]
          refine ⟨fun x hx => Nat.lt_succ_of_lt (hrel x hx),
            rfl, rfl, rfl, fun hmem => Nat.lt_irrefl _ (hrel _ hmem), Nat.lt_succ_self _⟩
        · rw [hOb, hBg] at hob
          exact hob.elim
      · rcases hBg : r.objectsBindGroup with _ | g
        · rw [hOb, hBg] at hob
          exact hob.elim
        · rw [hOb, hBg] at hob
          obtain ⟨h1, h2, h3, h4, h5⟩ := hob
          by_cases hsz : old.size = ss.length * SPHERE_SIZE
          · simp only [Renderer.step, update_spheres_eq_of_same r ss old hOb hsz hne,
              Option.getD_some]
            rw [Renderer.wf, hBg]
            exact ⟨hrel, h1, h2, h3, h4, h5⟩
          · simp only [Renderer.step, update_spheres_eq_of_ne r ss old hOb hsz hne,
              Option.getD_some]
            refine ⟨?_, rfl, rfl, rfl, ?_, Nat.lt_succ_self _⟩
            · intro x hx
              rcases List.mem_cons.mp hx with hx | hx
              · rw [hx]; exact Nat.lt_succ_of_lt h5
              · exact Nat.lt_succ_of_lt (hrel x hx)
            · intro hmem
              rcases List.mem_cons.mp hmem with hmem | hmem
              · simp only [] at hmem; omega
              · exact Nat.lt_irrefl _ (hrel _ hmem)

/-- The set of released buffer identities only grows. -/
theorem step_released_mono (r : Renderer) (op : Op) (x : Nat) (hx : x ∈ r.released) :
    x ∈ ((r.step op).1).released := by
  cases op with
  | updateCamera w hh => exact hx
  | updateTime ms => exact hx
  | render tex => exact hx
  | updateSpheres ss =>
    rcases eq_or_ne ss [] with hss | hss
    · subst hss
      simpa only [Renderer.step, update_spheres_nil, Option.getD_some] using hx
    · have hne := new_size_ne_zero hss
      rcases hOb : r.objectsBuffer with _ | old
      · simpa only [Renderer.step, update_spheres_eq_of_none r ss hOb hne,
          Option.getD_some] using hx
      · by_cases hsz : old.size = ss.length * SPHERE_SIZE
        · simpa only [Renderer.step, update_spheres_eq_of_same r ss old hOb hsz hne,
            Option.getD_some] using hx
        · simp only [Renderer.step, update_spheres_eq_of_ne r ss old hOb hsz hne,
            Option.getD_some]
          exact List.mem_cons_of_mem _ hx

/-- The only draw an operation can emit is the render pass's single
indexed draw, referencing the currently bound object bind group. -/
theorem step_draw_mem (r : Renderer) (op : Op) (n m : Nat) (o : Option Nat)
    (hmem : Event.drawIndexed n m o ∈ (r.step op).2) :
    n = QUAD_INDICES.length ∧ m = 1 ∧ o = r.objectsBindGroup.map BindGroup.bufferId := by
  cases op with
  | updateCamera w hh => simp [Renderer.step, Renderer.update_camera] at hmem
  | updateTime ms => simp [Renderer.step, Renderer.update_time] at hmem
  | render tex =>
    simp [Renderer.step, Renderer.render] at hmem
    exact hmem
  | updateSpheres ss =>
    rcases eq_or_ne ss [] with hss | hss
    · subst hss
      simp [Renderer.step, update_spheres_nil] at hmem
    · have hne := new_size_ne_zero hss
      rcases hOb : r.objectsBuffer with _ | old
      · simp [Renderer.step, update_spheres_eq_of_none r ss hOb hne] at hmem
      · by_cases hsz : old.size = ss.length * SPHERE_SIZE
        · simp [Renderer.step, update_spheres_eq_of_same r ss old hOb hsz hne] at hmem
        · simp [Renderer.step, update_spheres_eq_of_ne r ss old hOb hsz hne] at hmem

/-- From a well-formed state in which buffer identity `x` has been
released, no draw of any subsequent operation sequence references `x`. -/
theorem run_draw_avoid (x : Nat) :
    ∀ (ops : List Op) (r : Renderer), r.wf → x ∈ r.released →
      ∀ n m bid, Event.drawIndexed n m (some bid) ∈ (r.run ops).2 → bid ≠ x := by
  intro ops
  induction ops with
  | nil =>
    intro r _ _ n m bid hmem
    exact absurd hmem (List.not_mem_nil _)
  | cons op ops ih =>
    intro r hwf hx n m bid hmem
    simp only [Renderer.run, List.mem_append] at hmem
    rcases hmem with hmem | hmem
    · obtain ⟨-, -, href⟩ := step_draw_mem r op _ _ _ hmem
      rcases hBg : r.objectsBindGroup with _ | g
      · rw [hBg] at href
        exact absurd href (by simp)
      · rw [hBg] at href
        have hbid : bid = g.bufferId := by simpa using href
        obtain ⟨hrel, hob⟩ := hwf
        rcases hOb : r.objectsBuffer with _ | b
        · rw [hOb, hBg] at hob
          exact hob.elim
        · rw [hOb, hBg] at hob
          obtain ⟨h1, -, -, h4, -⟩ := hob
          intro hbidx
          exact h4 (by rw [← h1, ← hbid, hbidx]; exact hx)
    · exact ih (r.step op).1 (step_wf r op hwf) (step_released_mono r op x hx) n m bid hmem

/-- A trace without release events vacuously orders creations first. -/
theorem createdBeforeReleased_of_no_release (evts : List Event)
    (h : ∀ e ∈ evts, isReleaseBuffer e = false) : createdBeforeReleased evts := by
  intro j hj hrel
  rw [h evts[j] (List.getElem_mem hj)] at hrel
  cases hrel

/-- C1: for every `update_spheres` call with a non-zero record count, the
call succeeds, the bound object buffer's capacity afterwards is exactly
`count * SPHERE_SIZE` with the bind group onto that exact buffer; a
reallocation happens if and only if no buffer existed or its capacity
differed from the requirement; in the emitted trace every buffer release
is preceded by the creation of the replacement; and once the old buffer is
released no draw of any subsequent operation sequence references it. -/
theorem claim_C1_object_store_capacity (r : Renderer) (ss : List Sphere)
    (hwf : r.wf) (hne : ss ≠ []) :
    ∃ r' evts, r.update_spheres true ss = some (r', evts) ∧
      (∃ b g, r'.objectsBuffer = some b ∧ r'.objectsBindGroup = some g ∧
        b.size = ss.length * SPHERE_SIZE ∧ g.bufferId = b.id ∧ g.offset = 0 ∧ g.size = b.size) ∧
      (evts.any isCreateBuffer = true ↔
        ∀ old, r.objectsBuffer = some old → old.size ≠ ss.length * SPHERE_SIZE) ∧
      createdBeforeReleased evts ∧
      r'.wf ∧
      (∀ old, r.objectsBuffer = some old → old.size ≠ ss.length * SPHERE_SIZE →
        old.id ∈ r'.released ∧
        ∀ ops n m bid, Event.drawIndexed n m (some bid) ∈ (r'.run ops).2 → bid ≠ old.id) := by
  have hne' := new_size_ne_zero hne
  obtain ⟨hrel, hob⟩ := hwf
  rcases hOb : r.objectsBuffer with _ | old
  · have heq := update_spheres_eq_of_none r ss hOb hne'
    have hwf' := step_wf r (.updateSpheres ss) ⟨hrel, hob⟩
    simp only [Renderer.step, heq, Option.getD_some] at hwf'
    refine ⟨_, _, heq, ⟨_, _, rfl, rfl, rfl, rfl, rfl, rfl⟩, ?_, ?_, hwf', ?_⟩
    · refine iff_of_true (by simp [isCreateBuffer]) ?_
      intro o ho
      exact Option.noConfusion ho
    · refine createdBeforeReleased_of_no_release _ ?_
      intro e he
      fin_cases he <;> rfl
    · intro o ho
      exact Option.noConfusion ho
  · rw [hOb] at hob
    rcases hBg : r.objectsBindGroup with _ | g
    · rw [hBg] at hob
      exact hob.elim
    · rw [hBg] at hob
      obtain ⟨h1, h2, h3, h4, h5⟩ := hob
      by_cases hsz : old.size = ss.length * SPHERE_SIZE
      · have heq := update_spheres_eq_of_same r ss old hOb hsz hne'
        have hwf' := step_wf r (.updateSpheres ss) ⟨hrel, by rw [hOb, hBg]; exact ⟨h1, h2, h3, h4, h5⟩⟩
        simp only [Renderer.step, heq, Option.getD_some] at hwf'
        refine ⟨_, _, heq, ⟨_, g, rfl, hBg, hsz, h1, h2, ?_⟩, ?_, ?_, hwf', ?_⟩
        · exact h3
        · refine iff_of_false (by simp [isCreateBuffer]) ?_
          intro hf
          exact hf old rfl hsz
        · refine createdBeforeReleased_of_no_release _ ?_
          intro e he
          fin_cases he <;> rfl
        · intro o ho hszo
          injection ho with ho
          subst ho
          exact absurd hsz hszo
      · have heq := update_spheres_eq_of_ne r ss old hOb hsz hne'
        have hwf' := step_wf r (.updateSpheres ss) ⟨hrel, by rw [hOb, hBg]; exact ⟨h1, h2, h3, h4, h5⟩⟩
        simp only [Renderer.step, heq, Option.getD_some] at hwf'
        refine ⟨_, _, heq, ⟨_, _, rfl, rfl, rfl, rfl, rfl, rfl⟩, ?_, ?_, hwf', ?_⟩
        · refine iff_of_true (by simp [isCreateBuffer]) ?_
          intro o ho
          injection ho with ho
          subst ho
          exact hsz
        · intro j hj hrelj
          rcases j with _ | _ | _ | _ | _ | j
          · simp [isReleaseBuffer] at hrelj
          · simp [isReleaseBuffer] at hrelj
          · simp [isReleaseBuffer] at hrelj
          · exact ⟨1, by simp, by omega, by simp [isCreateBuffer]⟩
          · simp [isReleaseBuffer] at hrelj
          · simp only [List.length_cons, List.length_nil] at hj
            omega
        · intro o ho hszo
          injection ho with ho
          subst ho
          constructor
          · exact List.mem_cons_self _ _
          · intro ops n m bid hmem
            exact run_draw_avoid old.id ops _ hwf' (List.mem_cons_self _ _) n m bid hmem

/-- Witness for C1: from the freshly constructed renderer, an update with
one record succeeds. -/
theorem claim_C1_witness :
    ∃ r' evts, Renderer.new.update_spheres true [sphereEx1] = some (r', evts) := by
  obtain ⟨r', evts, h, -⟩ :=
    claim_C1_object_store_capacity Renderer.new [sphereEx1] wf_new (by simp)
  exact ⟨r', evts, h⟩

/-- C2: each presentation-acquire attempt is classified exactly one of
four ways: success renders and presents, `Lost` reconfigures and skips,
`OutOfMemory` is fatal (the process terminates, there is no successor
state), and `Outdated` or `Timeout` is logged and skipped with the state
unchanged for a retry next tick; only `OutOfMemory` ever yields the fatal
outcome, so a transient condition is never fatal and never a silent
crash. -/
theorem claim_C2_acquire_classification (t : RenderTarget) (tex : Nat) :
    renderTick t (.ok tex) = (.rendered, some (t, t.renderer.render tex ++ [Event.present tex])) ∧
    renderTick t (.err .Lost) =
      (.reconfiguredAndSkipped, some (t.resize t.windowWidth t.windowHeight)) ∧
    renderTick t (.err .OutOfMemory) = (.fatal, none) ∧
    renderTick t (.err .Outdated) = (.loggedAndSkipped, some (t, [Event.logError])) ∧
    renderTick t (.err .Timeout) = (.loggedAndSkipped, some (t, [Event.logError])) ∧
    FrameOutcome.loggedAndSkipped ≠ FrameOutcome.fatal ∧
    FrameOutcome.reconfiguredAndSkipped ≠ FrameOutcome.fatal ∧
    (∀ acq : AcquireResult, (renderTick t acq).1 = .fatal → acq = .err .OutOfMemory) := by
  refine ⟨rfl, rfl, rfl, rfl, rfl, by decide, by decide, ?_⟩
  intro acq hfa
  rcases acq with tex2 | e
  · simp [renderTick] at hfa
  · cases e <;> simp_all [renderTick]

/-- C3: on `Lost` the tick reconfigures the surface with the stored
configuration updated to the window's current dimensions (the configure
event is emitted first, before the call returns), attempts no draw, no
submit and no present, and leaves every part of the renderer except the
camera uniform unchanged; the camera uniform is rewritten with the
window's current dimensions as part of the reconfiguration, so the next
tick can retry from the same state. -/
theorem claim_C3_lost_reconfigure_skip (t : RenderTarget) :
    (renderTick t (.err .Lost)).1 = .reconfiguredAndSkipped ∧
    ∃ t' evts, (renderTick t (.err .Lost)).2 = some (t', evts) ∧
      t'.config = { width := t.windowWidth, height := t.windowHeight } ∧
      evts.head? = some (Event.configureSurface t.windowWidth t.windowHeight) ∧
      evts.countP isDraw = 0 ∧ evts.countP isSubmit = 0 ∧ evts.countP isPresent = 0 ∧
      t'.renderer = { t.renderer with cameraBuffer :=
        { t.renderer.cameraBuffer with
            contents := encodeCameraUniform t.windowWidth t.windowHeight } } ∧
      t'.renderer.objectsBuffer = t.renderer.objectsBuffer ∧
      t'.renderer.objectsBindGroup = t.renderer.objectsBindGroup ∧
      t'.renderer.timeBuffer = t.renderer.timeBuffer ∧
      t'.renderer.released = t.renderer.released ∧
      t'.windowWidth = t.windowWidth ∧ t'.windowHeight = t.windowHeight :=
  ⟨rfl, _, _, rfl, rfl, rfl, rfl, rfl, rfl, rfl, rfl, rfl, rfl, rfl, rfl, rfl⟩

/-- C4: an update with zero records is a no-op whatever the staging
allocator would have done: the state (including the prior object buffer
and bind group) is returned untouched, no event is emitted, and a
subsequent render is exactly the render of the previous state. -/
theorem claim_C4_empty_update_noop (r : Renderer) (allocOk : Bool) (tex : Nat) :
    r.update_spheres allocOk [] = some (r, []) ∧
    r.step (.updateSpheres []) = (r, []) ∧
    ((r.step (.updateSpheres [])).1).render tex = r.render tex :=
  ⟨rfl, rfl, rfl⟩

/-- C5: a non-empty update stores exactly the input records, in input
order, byte-identical under the 32-byte record layout: the buffer's
contents equal the concatenation of the records' byte images, record `i`
sits at stride offset `SPHERE_SIZE * i`, and the trace holds exactly one
queue write, of the whole buffer at offset 0. -/
theorem claim_C5_records_byte_identical (r : Renderer) (ss : List Sphere) (hne : ss ≠ []) :
    ∃ r' evts b, r.update_spheres true ss = some (r', evts) ∧
      r'.objectsBuffer = some b ∧
      b.size = ss.length * SPHERE_SIZE ∧
      b.contents = (ss.map sphereToBytes).flatten ∧
      (∀ i, ∀ hi : i < ss.length,
        (b.contents.drop (SPHERE_SIZE * i)).take SPHERE_SIZE = sphereToBytes (ss.get ⟨i, hi⟩)) ∧
      evts.countP isWriteBuffer = 1 ∧
      Event.writeBuffer b.id 0 (ss.length * SPHERE_SIZE) ∈ evts := by
  have hne' := new_size_ne_zero hne
  have hC : writeSpheresBytes ss (List.replicate (ss.length * SPHERE_SIZE) 0)
      = (ss.map sphereToBytes).flatten :=
    writeSpheresBytes_eq ss _ (List.length_replicate _ _)
  have hstride : ∀ i, ∀ hi : i < ss.length,
      ((writeSpheresBytes ss (List.replicate (ss.length * SPHERE_SIZE) 0)).drop
          (SPHERE_SIZE * i)).take SPHERE_SIZE = sphereToBytes (ss.get ⟨i, hi⟩) := by
    intro i hi
    rw [hC]
    exact flatten_sphere_stride ss i hi
  rcases hOb : r.objectsBuffer with _ | old
  · refine ⟨_, _, _, update_spheres_eq_of_none r ss hOb hne', rfl, rfl, hC, hstride, ?_, ?_⟩
    · simp [isWriteBuffer, isCreateBuffer]
    · simp
  · by_cases hsz : old.size = ss.length * SPHERE_SIZE
    · refine ⟨_, _, _, update_spheres_eq_of_same r ss old hOb hsz hne', rfl, hsz, hC, hstride,
        ?_, ?_⟩
      · simp [isWriteBuffer]
      · simp
    · refine ⟨_, _, _, update_spheres_eq_of_ne r ss old hOb hsz hne', rfl, rfl, hC, hstride,
        ?_, ?_⟩
      · simp [isWriteBuffer]
      · simp

/-- Witness for C5: the spec's two-record example is stored byte-identically. -/
theorem claim_C5_witness :
    ∃ r' evts b, Renderer.new.update_spheres true [sphereEx1, sphereEx2] = some (r', evts) ∧
      r'.objectsBuffer = some b ∧
      b.contents = ([sphereEx1, sphereEx2].map sphereToBytes).flatten := by
  obtain ⟨r', evts, b, h1, h2, -, h4, -⟩ :=
    claim_C5_records_byte_identical Renderer.new [sphereEx1, sphereEx2] (by simp)
  exact ⟨r', evts, b, h1, h2, h4⟩

/-- C6 (supporting theorem): when the staging allocation of
`write_buffer_with` fails during a one-record update from the initial
state, the call panics (modelled as `none`): no `ResourceAllocationFailed`
value is produced and no skipped-frame state is returned, so the host's
loop does not keep running. -/
theorem claim_C6_alloc_failure_panics :
    Renderer.new.update_spheres false [sphereEx1] = none := rfl

/-- C7: `update_camera` overwrites the whole camera uniform
unconditionally and emits no draw and no submission; two consecutive
calls leave exactly the state of the last call, with no remnant of the
earlier values anywhere in the renderer. -/
theorem claim_C7_update_camera_overwrites (r : Renderer) (w1 h1 w2 h2 : Nat) :
    (r.update_camera w2 h2).1.cameraBuffer.contents = encodeCameraUniform w2 h2 ∧
    ((r.update_camera w1 h1).1.update_camera w2 h2) = r.update_camera w2 h2 ∧
    (r.update_camera w2 h2).2.countP isDraw = 0 ∧
    (r.update_camera w2 h2).2.countP isSubmit = 0 ∧
    (r.update_camera w2 h2).1 =
      { r with cameraBuffer :=
          { r.cameraBuffer with contents := encodeCameraUniform w2 h2 } } :=
  ⟨rfl, rfl, rfl, rfl, rfl⟩

/-- C8: every render emits exactly this command sequence: begin a pass
clearing to the fixed background color (1,0,1,1), set the pipeline, bind
camera, time and objects at slots 0, 1, 2, bind the quad vertex and index
buffers, issue one indexed draw of all 6 indices (two triangles) for one
instance, end the pass, submit. -/
theorem claim_C8_render_pass_structure (r : Renderer) (tex : Nat) :
    r.render tex =
      [ Event.beginRenderPass tex 1 0 1 1
      , Event.setPipeline
      , Event.setBindGroup 0 (some r.cameraBindGroup.bufferId)
      , Event.setBindGroup 1 (some r.timeBindGroup.bufferId)
      , Event.setBindGroup 2 (r.objectsBindGroup.map BindGroup.bufferId)
      , Event.setVertexBuffer 0 r.vertexBuffer.id
      , Event.setIndexBuffer r.indexBuffer.id
      , Event.drawIndexed QUAD_INDICES.length 1 (r.objectsBindGroup.map BindGroup.bufferId)
      , Event.endRenderPass
      , Event.submit ] ∧
    QUAD_INDICES.length = 6 ∧ QUAD_INDICES.length = 2 * 3 ∧ QUAD_VERTICES.length = 4 ∧
    (r.render tex).countP isDraw = 1 ∧ (r.render tex).countP isSubmit = 1 :=
  ⟨rfl, rfl, rfl, rfl, rfl, rfl⟩

/-- Every operation preserves the buffer/bind-group pairing invariant. -/
theorem step_objectsConsistent (r : Renderer) (op : Op) (h : r.objectsConsistent) :
    ((r.step op).1).objectsConsistent := by
  cases op with
  | updateCamera w hh => exact h
  | updateTime ms => exact h
  | render tex => exact h
  | updateSpheres ss =>
    rcases eq_or_ne ss [] with hss | hss
    · subst hss
      simpa only [Renderer.step, update_spheres_nil, Option.getD_some] using h
    · have hne := new_size_ne_zero hss
      rcases hOb : r.objectsBuffer with _ | old
      · simp only [Renderer.step, update_spheres_eq_of_none r ss hOb hne, Option.getD_some]
        exact ⟨rfl, rfl, rfl⟩
      · by_cases hsz : old.size = ss.length * SPHERE_SIZE
        · rcases hBg : r.objectsBindGroup with _ | g
          · unfold Renderer.objectsConsistent at h
            rw [hOb, hBg] at h
            exact h.elim
          · unfold Renderer.objectsConsistent at h
            rw [hOb, hBg] at h
            obtain ⟨h1, h2, h3⟩ := h
            simp only [Renderer.step, update_spheres_eq_of_same r ss old hOb hsz hne,
              Option.getD_some]
            simp only [Renderer.objectsConsistent, hBg]
            exact ⟨h1, h2, h3⟩
        · simp only [Renderer.step, update_spheres_eq_of_ne r ss old hOb hsz hne,
            Option.getD_some]
          exact ⟨rfl, rfl, rfl⟩

/-- C9: at construction both the object buffer and the object bind group
are absent, the pairing invariant holds, and every operation preserves
it: buffer and bind group are both absent or both present, the bind group
referencing exactly that buffer in its entirety. -/
theorem claim_C9_buffer_bindgroup_paired :
    Renderer.new.objectsBuffer = none ∧ Renderer.new.objectsBindGroup = none ∧
    Renderer.new.objectsConsistent ∧
    ∀ (r : Renderer) (op : Op), r.objectsConsistent → ((r.step op).1).objectsConsistent :=
  ⟨rfl, rfl, trivial, step_objectsConsistent⟩

/-- C10: immediately after construction the camera uniform holds width 1,
height 1 and the time uniform holds 0.0 ms (bit pattern 0); a render
issued before any update binds exactly those buffers, so it uses the
defaults; the host supplies the real dimensions itself, `add` calling
`update_camera` right after construction. -/
theorem claim_C10_initial_defaults (w h tex : Nat) :
    Renderer.new.cameraBuffer.contents = encodeCameraUniform 1 1 ∧
    Renderer.new.timeBuffer.contents = encodeTimeUniform f32Zero ∧
    f32Zero = 0 ∧
    Event.setBindGroup 0 (some Renderer.new.cameraBuffer.id) ∈ Renderer.new.render tex ∧
    Event.setBindGroup 1 (some Renderer.new.timeBuffer.id) ∈ Renderer.new.render tex ∧
    (addRenderer w h).cameraBuffer.contents = encodeCameraUniform w h := by
  refine ⟨rfl, rfl, rfl, ?_, ?_, rfl⟩
  · simp [Renderer.render, Renderer.new]
  · simp [Renderer.render, Renderer.new]

end RtGpu
